import Mathlib

/-!
# MockView Trainer frontend — verification of the client service layer

Shallow embedding of the reviewed frontend source:

* `src/services/api.ts` — axios client configuration, request/response
  interceptors, `API_ENDPOINTS` constants;
* `src/services/authService.ts` — signup / login / logout / profile
  operations, local-storage session helpers;
* `src/services/interviewService.ts`, `fluencyService.ts`,
  `resumeService.ts`, `dashboardService.ts` — the remaining service
  operations (all of them the same try/catch envelope pattern);
* `src/App.tsx` and `src/components/Dashboard.tsx` — the page navigation
  state machine.

JavaScript values flowing through the services are modelled by the `Json`
inductive below; `localStorage` is the two-field `Store`; the outcome of an
axios call is `CallResult`.  `JSON.stringify` / `JSON.parse` are modelled by
an executable serializer and recursive-descent parser over `List Char`
(numbers are restricted to the integer fragment of the JSON grammar).
-/

/-- JavaScript / JSON values as seen by the service layer.  Objects keep
their fields as an ordered association list (later bindings shadow earlier
ones on lookup, as in JavaScript). -/
inductive Json where
  | jnull : Json
  | jbool : Bool → Json
  | jnum : Int → Json
  | jstr : String → Json
  | jarr : List Json → Json
  | jobj : List (String × Json) → Json
deriving Repr, BEq

/-- JavaScript property lookup on an object: the *last* binding of a key
wins (later duplicate keys shadow earlier ones); any lookup on a non-object
yields `none` (JS `undefined`). -/
def lookupLast : List (String × Json) → String → Option Json
  | [], _ => none
  | (k, v) :: fs, key =>
    match lookupLast fs key with
    | some r => some r
    | none => if k = key then some v else none

/-- Property access `x.key`, `none` playing the role of `undefined`. -/
def Json.getField : Json → String → Option Json
  | .jobj fs, k => lookupLast fs k
  | _, _ => none

/-- JavaScript truthiness of a value. -/
def truthy : Json → Bool
  | .jnull => false
  | .jbool b => b
  | .jnum n => if n = 0 then false else true
  | .jstr s => if s = "" then false else true
  | .jarr _ => true
  | .jobj _ => true

/-- Truthiness of a possibly-absent (`undefined`) value. -/
def truthyOpt : Option Json → Bool
  | some j => truthy j
  | none => false

/-- The `\x7b` character. -/
def obrace : Char := Char.ofNat 123

/-- The `\x7d` character. -/
def cbrace : Char := Char.ofNat 125

/-- Lower-case hex digit character for `n < 16`, as used by
`JSON.stringify`'s `\u00XY` escapes. -/
def hexDigitChar (n : Nat) : Char :=
  if n < 10 then Char.ofNat (48 + n) else Char.ofNat (87 + n)

/-- The `JSON.stringify` escaping of a single character inside a string
literal: quote and backslash get a backslash escape, the named control
characters use their short forms, the remaining control characters use
`\u00XY`, and everything else is emitted verbatim. -/
def escapeChar (c : Char) : List Char :=
  if c = '"' then ['\\', '"']
  else if c = '\\' then ['\\', '\\']
  else if c = Char.ofNat 8 then ['\\', 'b']
  else if c = Char.ofNat 9 then ['\\', 't']
  else if c = Char.ofNat 10 then ['\\', 'n']
  else if c = Char.ofNat 12 then ['\\', 'f']
  else if c = Char.ofNat 13 then ['\\', 'r']
  else if c.toNat < 32 then
    ['\\', 'u', '0', '0', hexDigitChar (c.toNat / 16), hexDigitChar (c.toNat % 16)]
  else [c]

/-- Escape a whole string body. -/
def escapeL : List Char → List Char
  | [] => []
  | c :: cs => escapeChar c ++ escapeL cs

mutual

/-- Model of `JSON.stringify` (as a `List Char`): no added whitespace, object keys
in property order — exactly the output shape the browser produces for the
values the services store. -/
def stringifyL : Json → List Char
  | .jnull => ['n', 'u', 'l', 'l']
  | .jbool true => ['t', 'r', 'u', 'e']
  | .jbool false => ['f', 'a', 'l', 's', 'e']
  | .jnum n => (toString n).data
  | .jstr s => '"' :: escapeL s.data ++ ['"']
  | .jarr xs => '[' :: stringifyArr xs ++ [']']
  | .jobj fs => obrace :: stringifyObj fs ++ [cbrace]

/-- Comma-separated array elements. -/
def stringifyArr : List Json → List Char
  | [] => []
  | [x] => stringifyL x
  | x :: y :: xs => stringifyL x ++ ',' :: stringifyArr (y :: xs)

/-- Comma-separated `"key":value` object fields. -/
def stringifyObj : List (String × Json) → List Char
  | [] => []
  | [(k, v)] => '"' :: escapeL k.data ++ '"' :: ':' :: stringifyL v
  | (k, v) :: f :: fs =>
    ('"' :: escapeL k.data ++ '"' :: ':' :: stringifyL v) ++ ',' :: stringifyObj (f :: fs)

end

/-- Pack a character list back into a `String`. -/
def strOf (cs : List Char) : String := String.mk cs

/-- The string produced by `JSON.stringify` on a `Json` value. -/
def stringifyStr (j : Json) : String := strOf (stringifyL j)

/-- Skip JSON insignificant whitespace. -/
def skipWs : List Char → List Char
  | [] => []
  | c :: cs =>
    if c = ' ' ∨ c = Char.ofNat 10 ∨ c = Char.ofNat 9 ∨ c = Char.ofNat 13 then skipWs cs
    else c :: cs

/-- Value of one hex digit. -/
def hexVal (c : Char) : Option Nat :=
  if '0' ≤ c ∧ c ≤ '9' then some (c.toNat - 48)
  else if 'a' ≤ c ∧ c ≤ 'f' then some (c.toNat - 87)
  else if 'A' ≤ c ∧ c ≤ 'F' then some (c.toNat - 55)
  else none

/-- Single-character JSON escapes. -/
def unescape (c : Char) : Option Char :=
  if c = '"' then some '"'
  else if c = '\\' then some '\\'
  else if c = '/' then some '/'
  else if c = 'b' then some (Char.ofNat 8)
  else if c = 'f' then some (Char.ofNat 12)
  else if c = 'n' then some (Char.ofNat 10)
  else if c = 'r' then some (Char.ofNat 13)
  else if c = 't' then some (Char.ofNat 9)
  else none

/-- Parse the body of a JSON string literal (the opening quote already
consumed); returns the decoded characters and the input following the
closing quote.  Unescaped control characters are rejected, as by
`JSON.parse`. -/
def parseStrBody : List Char → Option (List Char × List Char)
  | [] => none
  | c :: rest =>
    if c = '"' then some ([], rest)
    else if c = '\\' then
      match rest with
      | [] => none
      | e :: rest2 =>
        if e = 'u' then
          match rest2 with
          | h1 :: h2 :: h3 :: h4 :: rest3 =>
            match hexVal h1, hexVal h2, hexVal h3, hexVal h4 with
            | some a, some b, some c2, some d =>
              match parseStrBody rest3 with
              | some (s, r) => some (Char.ofNat (((a * 16 + b) * 16 + c2) * 16 + d) :: s, r)
              | none => none
            | _, _, _, _ => none
          | _ => none
        else
          match unescape e with
          | some ch =>
            match parseStrBody rest2 with
            | some (s, r) => some (ch :: s, r)
            | none => none
          | none => none
    else if c.toNat < 32 then none
    else
      match parseStrBody rest with
      | some (s, r) => some (c :: s, r)
      | none => none
termination_by cs => cs.length
decreasing_by all_goals simp_all <;> omega

/-- Decimal digit value. -/
def digitVal (c : Char) : Option Nat :=
  if '0' ≤ c ∧ c ≤ '9' then some (c.toNat - 48) else none

/-- Greedily read decimal digits. -/
def takeDigits : List Char → (List Nat × List Char)
  | [] => ([], [])
  | c :: cs =>
    match digitVal c with
    | some d =>
      match takeDigits cs with
      | (ds, r) => (d :: ds, r)
    | none => ([], c :: cs)

/-- Decimal value of a digit list. -/
def natOfDigits (ds : List Nat) : Nat := ds.foldl (fun a d => a * 10 + d) 0

/-- Parse a JSON integer numeral (optional minus sign, no leading zeros).
The fractional / exponent forms of the JSON grammar are outside the
modelled fragment. -/
def parseIntToken (cs : List Char) : Option (Int × List Char) :=
  let p : Bool × List Char :=
    match cs with
    | '-' :: r => (true, r)
    | _ => (false, cs)
  match takeDigits p.2 with
  | ([], _) => none
  | (d :: ds, r) =>
    if d = 0 ∧ ds ≠ [] then none
    else
      let n : Int := Int.ofNat (natOfDigits (d :: ds))
      some (if p.1 then -n else n, r)

mutual

/-- Recursive-descent JSON value parser (model of `JSON.parse`), fuelled;
`parseJson` below supplies more fuel than any input can consume. -/
def parseVal : Nat → List Char → Option (Json × List Char)
  | 0, _ => none
  | fuel + 1, cs =>
    match skipWs cs with
    | [] => none
    | c :: rest =>
      if c = 'n' then
        match rest with
        | 'u' :: 'l' :: 'l' :: r => some (.jnull, r)
        | _ => none
      else if c = 't' then
        match rest with
        | 'r' :: 'u' :: 'e' :: r => some (.jbool true, r)
        | _ => none
      else if c = 'f' then
        match rest with
        | 'a' :: 'l' :: 's' :: 'e' :: r => some (.jbool false, r)
        | _ => none
      else if c = '"' then
        match parseStrBody rest with
        | some (s, r) => some (.jstr (strOf s), r)
        | none => none
      else if c = '[' then parseArrRest fuel (skipWs rest)
      else if c = obrace then parseObjRest fuel (skipWs rest)
      else
        match parseIntToken (c :: rest) with
        | some (n, r) => some (.jnum n, r)
        | none => none

/-- After `[` (whitespace skipped): empty array or first element. -/
def parseArrRest : Nat → List Char → Option (Json × List Char)
  | 0, _ => none
  | fuel + 1, cs =>
    match cs with
    | ']' :: rest => some (.jarr [], rest)
    | _ =>
      match parseVal fuel cs with
      | some (v, r) => parseArrLoop fuel [v] r
      | none => none

/-- Array continuation: `,` then next element, or `]` to finish. -/
def parseArrLoop : Nat → List Json → List Char → Option (Json × List Char)
  | 0, _, _ => none
  | fuel + 1, acc, cs =>
    match skipWs cs with
    | ']' :: rest => some (.jarr acc.reverse, rest)
    | ',' :: rest =>
      match parseVal fuel rest with
      | some (v, r) => parseArrLoop fuel (v :: acc) r
      | none => none
    | _ => none

/-- After `\x7b` (whitespace skipped): empty object or first key. -/
def parseObjRest : Nat → List Char → Option (Json × List Char)
  | 0, _ => none
  | fuel + 1, cs =>
    match cs with
    | [] => none
    | c :: rest =>
      if c = cbrace then some (.jobj [], rest)
      else if c = '"' then
        match parseStrBody rest with
        | some (k, r) => parseFieldVal fuel (strOf k) [] r
        | none => none
      else none

/-- After a key: expect `:` then the field value. -/
def parseFieldVal : Nat → String → List (String × Json) → List Char →
    Option (Json × List Char)
  | 0, _, _, _ => none
  | fuel + 1, k, acc, cs =>
    match skipWs cs with
    | ':' :: rest =>
      match parseVal fuel rest with
      | some (v, r) => parseObjLoop fuel ((k, v) :: acc) r
      | none => none
    | _ => none

/-- Object continuation: `,` then next key, or `\x7d` to finish. -/
def parseObjLoop : Nat → List (String × Json) → List Char → Option (Json × List Char)
  | 0, _, _ => none
  | fuel + 1, acc, cs =>
    match skipWs cs with
    | [] => none
    | c :: rest =>
      if c = cbrace then some (.jobj acc.reverse, rest)
      else if c = ',' then
        match skipWs rest with
        | c2 :: rest2 =>
          if c2 = '"' then
            match parseStrBody rest2 with
            | some (k, r) => parseFieldVal fuel (strOf k) acc r
            | none => none
          else none
        | [] => none
      else none

end

/-- Model of `JSON.parse`: parse one value, require only whitespace to
remain, reject everything else (`none` plays the role of the thrown
`SyntaxError`).  The fuel bound `length + 32` can never be exhausted, since
every recursive step consumes input. -/
def parseJson (s : String) : Option Json :=
  match parseVal (s.data.length + 32) s.data with
  | some (j, rest) => if skipWs rest = [] then some j else none
  | none => none

/-!
## Client session store (`localStorage` keys `authToken` and `user`)
-/

/-- The two localStorage slots the reviewed code uses: `authToken` and
`user`.  `none` models an absent key; stored values are raw strings. -/
structure Store where
  authToken : Option String
  user : Option String
deriving Repr, DecidableEq

/-- The store with both keys removed. -/
def Store.empty : Store := ⟨none, none⟩

/-- Model of `authService.isAuthenticated`: `!!localStorage.getItem('authToken')` —
true iff the token key is present with a non-empty (truthy) string. -/
def isAuthenticated (st : Store) : Bool :=
  match st.authToken with
  | some t => if t = "" then false else true
  | none => false

/-- Model of `authService.getAuthToken`: raw read of the token key. -/
def getAuthToken (st : Store) : Option String := st.authToken

/-- Model of `authService.getCurrentUser`: read the `user` key; if present and
truthy, `JSON.parse` it, a parse failure being caught and turned into
`null`; otherwise `null`.  Total by construction — it can never raise. -/
def getCurrentUser (st : Store) : Option Json :=
  match st.user with
  | some s => if s = "" then none else parseJson s
  | none => none

/-- The `User` record of `authService.ts` (all fields are strings in the
declared interface). -/
structure UserRec where
  id : String
  email : String
  name : String
  skill_level : String
  job_role : String
  created_at : String
  updated_at : String
deriving Repr, DecidableEq

/-- A `User` record as the JSON object the backend sends and
`JSON.stringify` serializes (fields in declaration order). -/
def userToJson (u : UserRec) : Json :=
  .jobj [("id", .jstr u.id), ("email", .jstr u.email), ("name", .jstr u.name),
    ("skill_level", .jstr u.skill_level), ("job_role", .jstr u.job_role),
    ("created_at", .jstr u.created_at), ("updated_at", .jstr u.updated_at)]

/-- Writing a user record to the store:
`localStorage.setItem('user', JSON.stringify(user))`. -/
def writeUserRec (u : UserRec) (st : Store) : Store :=
  ⟨st.authToken, some (stringifyStr (userToJson u))⟩

/-!
## HTTP client wrapper (`api.ts`)
-/

/-- The API base URL: `import.meta.env.VITE_API_URL || 'http://localhost:5000/api'`
(`none` / empty environment value falls back to the default). -/
def apiBaseUrl (env : Option String) : String :=
  match env with
  | some u => if u = "" then "http://localhost:5000/api" else u
  | none => "http://localhost:5000/api"

/-- The object `API_ENDPOINTS.AUTH` of `api.ts`, as the key/value pairs of the object
literal.  Note: there is **no** `LOGOUT` entry in the source. -/
def AUTH_ENDPOINTS : List (String × String) :=
  [("SIGNUP", "/auth/signup"), ("LOGIN", "/auth/login"),
   ("PROFILE", "/auth/profile"), ("UPDATE_PROFILE", "/auth/profile")]

/-- JavaScript property access on a string-valued object literal
(`none` = `undefined`). -/
def lookupStr (fs : List (String × String)) (k : String) : Option String :=
  match fs.find? (fun p => p.1 = k) with
  | some p => some p.2
  | none => none

/-- Axios `buildFullPath`: a relative (or `undefined`) request URL is
resolved against the base URL; `undefined` yields the bare base URL. -/
def buildFullPath (base : String) (url : Option String) : String :=
  match url with
  | some u => base ++ u
  | none => base

/-- An outgoing request as the service layer hands it to axios, before the
request interceptor runs: no service module ever sets `authHeader` itself,
so it is `none` in every constructor below. -/
structure ApiRequest where
  method : String
  url : Option String
  params : List (String × String)
  body : Option Json
  authHeader : Option String
deriving Repr

/-- The request interceptor of `api.ts`: read `authToken` from storage and,
if truthy, set `Authorization: Bearer <token>`. -/
def applyRequestInterceptor (st : Store) (r : ApiRequest) : ApiRequest :=
  match st.authToken with
  | some t =>
    if t = "" then r
    else ⟨r.method, r.url, r.params, r.body, some ("Bearer " ++ t)⟩
  | none => r

/-- The outcome of one axios call, as the service layer observes it:
a success response body, a server error status with response body, or a
transport failure (request sent, no response).  The `errMessage` of a
failure is axios's `error.message`. -/
inductive CallResult where
  | success (body : Json)
  | failure (response : Option (Nat × Json)) (errMessage : String)
deriving Repr

/-- The response interceptor of `api.ts`: a 401 response removes both
`authToken` and `user` from storage (other statuses are only logged and
passed through unchanged); the error is then re-rejected to the caller. -/
def interceptStore (r : CallResult) (st : Store) : Store :=
  match r with
  | .failure (some (status, _)) _ => if status = 401 then Store.empty else st
  | _ => st

/-!
## Domain service operations
-/

/-- All service operations of the five service modules. -/
inductive ServiceOp where
  | signup | login | logout | getProfile | updateProfile
  | startInterview | getQuestions | submitAnswer | submitVoiceAnswer | getFeedback
  | startFluencyTest | submitTranscript | getFluencyScore
  | buildResume | analyzeResume | getTemplates | exportResume | getResumeFeedback
  | getStats | getHistory | getTrends
deriving Repr, DecidableEq

/-- The per-operation generic fallback message of each `catch` block.
`logout` has no envelope-building catch block in the source, so its entry
is never consulted by `runOp`. -/
def fallbackMsg : ServiceOp → String
  | .signup => "Signup failed"
  | .login => "Login failed"
  | .logout => ""
  | .getProfile => "Failed to get profile"
  | .updateProfile => "Failed to update profile"
  | .startInterview => "Failed to start interview"
  | .getQuestions => "Failed to get questions"
  | .submitAnswer => "Failed to submit answer"
  | .submitVoiceAnswer => "Failed to submit voice answer"
  | .getFeedback => "Failed to get feedback"
  | .startFluencyTest => "Failed to start fluency test"
  | .submitTranscript => "Failed to analyze fluency"
  | .getFluencyScore => "Failed to get fluency score"
  | .buildResume => "Failed to build resume"
  | .analyzeResume => "Failed to analyze resume"
  | .getTemplates => "Failed to get templates"
  | .exportResume => "Failed to export resume"
  | .getResumeFeedback => "Failed to get resume feedback"
  | .getStats => "Failed to get statistics"
  | .getHistory => "Failed to get history"
  | .getTrends => "Failed to get trends"

/-- Reading `error.response?.data?.message` — the optional server-provided message
of a failure. -/
def serverMessage (response : Option (Nat × Json)) : Option Json :=
  match response with
  | some (_, body) => body.getField "message"
  | none => none

/-- Computing `error.response?.data?.message || '<fallback>'` — JavaScript `||`
falls through to the fallback on an absent *or falsy* server message. -/
def envelopeMessage (response : Option (Nat × Json)) (fallback : String) : Json :=
  match serverMessage response with
  | some m => if truthy m then m else .jstr fallback
  | none => .jstr fallback

/-- The failure envelope every service `catch` block constructs:
`\x7b success: false, message: ..., error: error.message \x7d`. -/
def failEnvelope (fallback : String) (response : Option (Nat × Json))
    (errMessage : String) : Json :=
  .jobj [("success", .jbool false), ("message", envelopeMessage response fallback),
    ("error", .jstr errMessage)]

/-- JavaScript `String(v)` coercion, used by `localStorage.setItem` on a
non-string value (object arguments collapse to `"[object Object]"`). -/
def jsToString : Json → String
  | .jnull => "null"
  | .jbool true => "true"
  | .jbool false => "false"
  | .jnum n => toString n
  | .jstr s => s
  | .jarr _ => ""
  | .jobj _ => "[object Object]"

/-- Result of `JSON.stringify` on a possibly-`undefined` value as it reaches
`localStorage.setItem` (stringifying `undefined` makes `setItem` store the
string `"undefined"`). -/
def stringifyOpt : Option Json → String
  | some j => stringifyStr j
  | none => "undefined"

/-- The success-branch store update shared by `signup` and `login`:
if `response.data.success && response.data.data`, store
`data.access_token` under `authToken` *when it is truthy*, and always
store `JSON.stringify(data.user)` under `user`. -/
def storeAuthData (body : Json) (st : Store) : Store :=
  if truthyOpt (body.getField "success") && truthyOpt (body.getField "data") then
    let d := (body.getField "data").getD .jnull
    let st1 : Store :=
      if truthyOpt (d.getField "access_token") then
        ⟨some (jsToString ((d.getField "access_token").getD .jnull)), st.user⟩
      else st
    ⟨st1.authToken, some (stringifyOpt (d.getField "user"))⟩
  else st

/-- The success-branch store update of `updateProfile`: if
`response.data.success && response.data.data`, store
`JSON.stringify(response.data.data)` under `user`. -/
def storeProfileData (body : Json) (st : Store) : Store :=
  if truthyOpt (body.getField "success") && truthyOpt (body.getField "data") then
    ⟨st.authToken, some (stringifyOpt (body.getField "data"))⟩
  else st

/-- One complete service invocation: the call outcome is produced by the
environment, the response interceptor's store side effect runs first, then
the operation's own try/catch logic.  The first component is the resolved
value (`none` = resolves `undefined`, as `logout` does), the second the
final store.  Every operation resolves — no path throws to the caller. -/
def runOp (op : ServiceOp) (r : CallResult) (st : Store) : Option Json × Store :=
  match op, r with
  | .logout, _ => (none, Store.empty)
  | .signup, .success body => (some body, storeAuthData body st)
  | .login, .success body => (some body, storeAuthData body st)
  | .updateProfile, .success body => (some body, storeProfileData body st)
  | _, .success body => (some body, st)
  | op', .failure resp msg =>
    (some (failEnvelope (fallbackMsg op') resp msg), interceptStore (.failure resp msg) st)

/-!
## Requests issued by the service operations
-/

/-- The arguments a service operation may take (request body for POST/PUT
operations, path/query arguments for the rest).  `none` in an `Option`
field models an omitted optional TypeScript parameter. -/
structure OpArgs where
  body : Json
  jobRole : String
  skillLevel : String
  count : Option Nat
  sessionId : String
  testId : String
  resumeId : String
  template : Option String
  histLimit : Option Nat
  days : Option Nat
deriving Repr

/-- The single HTTP request each operation hands to the axios client
(before the request interceptor).  URLs are the `API_ENDPOINTS` constants;
`logout` reads the missing `API_ENDPOINTS.AUTH.LOGOUT` property, so its
URL is `none` (`undefined`).  Omitted optional parameters take the
TypeScript default-parameter values (`count = 5`, `limit = 10`,
`days = 30`, `template = 'modern'`). -/
def opRawRequest (op : ServiceOp) (a : OpArgs) : ApiRequest :=
  match op with
  | .signup => ⟨"POST", some "/auth/signup", [], some a.body, none⟩
  | .login => ⟨"POST", some "/auth/login", [], some a.body, none⟩
  | .logout => ⟨"POST", lookupStr AUTH_ENDPOINTS "LOGOUT", [], none, none⟩
  | .getProfile => ⟨"GET", some "/auth/profile", [], none, none⟩
  | .updateProfile => ⟨"PUT", some "/auth/profile", [], some a.body, none⟩
  | .startInterview => ⟨"POST", some "/interview/start", [], some a.body, none⟩
  | .getQuestions =>
    ⟨"GET", some "/interview/questions",
      [("job_role", a.jobRole), ("skill_level", a.skillLevel),
       ("count", toString (a.count.getD 5))], none, none⟩
  | .submitAnswer => ⟨"POST", some "/interview/submit-answer", [], some a.body, none⟩
  | .submitVoiceAnswer => ⟨"POST", some "/interview/voice-answer", [], some a.body, none⟩
  | .getFeedback => ⟨"GET", some ("/interview/feedback/" ++ a.sessionId), [], none, none⟩
  | .startFluencyTest => ⟨"POST", some "/fluency/test", [], none, none⟩
  | .submitTranscript => ⟨"POST", some "/fluency/analyze", [], some a.body, none⟩
  | .getFluencyScore => ⟨"GET", some ("/fluency/score/" ++ a.testId), [], none, none⟩
  | .buildResume => ⟨"POST", some "/resume/build", [], some a.body, none⟩
  | .analyzeResume => ⟨"POST", some "/resume/analyze", [], some a.body, none⟩
  | .getTemplates => ⟨"GET", some "/resume/templates", [], none, none⟩
  | .exportResume =>
    ⟨"POST", some "/resume/export", [],
      some (.jobj [("resume_id", .jstr a.resumeId),
        ("template", .jstr (a.template.getD "modern"))]), none⟩
  | .getResumeFeedback => ⟨"GET", some ("/resume/feedback/" ++ a.resumeId), [], none, none⟩
  | .getStats => ⟨"GET", some "/dashboard/stats", [], none, none⟩
  | .getHistory =>
    ⟨"GET", some "/dashboard/history", [("limit", toString (a.histLimit.getD 10))], none, none⟩
  | .getTrends =>
    ⟨"GET", some "/dashboard/trends", [("days", toString (a.days.getD 30))], none, none⟩

/-!
## Page navigation state machine (`App.tsx`, `Dashboard.tsx`)
-/

/-- The fixed `Page` union of `App.tsx`. -/
inductive Page where
  | welcome | login | dashboard | mockInterview | resumeBuilder | resumeAnalyzer
  | fluencyTester | chatbox | progress | tips
deriving Repr, DecidableEq

/-- The component `renderPage` displays for a given `currentPage` string:
the `switch` of `App.tsx`, whose `default` branch renders the welcome
screen for any unrecognized identifier. -/
def renderOf (s : String) : Page :=
  if s = "welcome" then .welcome
  else if s = "login" then .login
  else if s = "dashboard" then .dashboard
  else if s = "mock-interview" then .mockInterview
  else if s = "resume-builder" then .resumeBuilder
  else if s = "resume-analyzer" then .resumeAnalyzer
  else if s = "fluency-tester" then .fluencyTester
  else if s = "chatbox" then .chatbox
  else if s = "progress" then .progress
  else if s = "tips" then .tips
  else .welcome

/-- Is the displayed page one of the seven feature pages reachable from
the dashboard? -/
def isFeaturePage : Page → Bool
  | .welcome => false
  | .login => false
  | .dashboard => false
  | _ => true

/-- The user navigation events wired up in `App.tsx`: the welcome screen's
two entry actions, the login page's back / success callbacks, the
dashboard's feature selection (`Dashboard.onNavigate` passes the clicked
feature's `id` string through unchanged), and the feature pages' back
buttons. -/
inductive NavAction where
  | getStarted | loginNav | back | loginSuccess | featureSelect (id : String)
deriving Repr

/-- Initial state `useState<Page>('welcome')` — the initial `currentPage`. -/
def appInitialPage : String := "welcome"

/-- One navigation step: which handler an action reaches depends on the
component currently rendered, and each handler is a `setCurrentPage` with
the value wired in `App.tsx`.  An action with no handler on the current
page leaves the state unchanged. -/
def navStep (s : String) (a : NavAction) : String :=
  match renderOf s, a with
  | .welcome, .getStarted => "login"
  | .welcome, .loginNav => "login"
  | .login, .back => "welcome"
  | .login, .loginSuccess => "dashboard"
  | .dashboard, .featureSelect id => id
  | .mockInterview, .back => "dashboard"
  | .resumeBuilder, .back => "dashboard"
  | .resumeAnalyzer, .back => "dashboard"
  | .fluencyTester, .back => "dashboard"
  | .chatbox, .back => "dashboard"
  | .progress, .back => "dashboard"
  | .tips, .back => "dashboard"
  | _, _ => s

/-!
## Round-trip lemmas: `parseJson` inverts `stringifyStr` on user records
-/

/-- Reading back a hex digit emitted by `hexDigitChar` recovers its value. -/
theorem hexVal_hexDigitChar (n : Nat) (h : n < 16) :
    hexVal (hexDigitChar n) = some n := by
  interval_cases n <;> rfl

/-- Packing with `String.mk` undoes `String.data`. -/
theorem strOf_data (s : String) : strOf s.data = s := rfl

/-- The string-literal parser decodes exactly what `escapeL` encoded and
stops at the closing quote. -/
theorem parseStrBody_escape (cs : List Char) (rest : List Char) :
    parseStrBody (escapeL cs ++ '"' :: rest) = some (cs, rest) := by
  induction cs with
  | nil => rw [escapeL, List.nil_append, parseStrBody.eq_def]; simp
  | cons c cs ih =>
    show parseStrBody (escapeChar c ++ escapeL cs ++ '"' :: rest) = some (c :: cs, rest)
    by_cases h1 : c = '"'
    · subst h1
      rw [show escapeChar '"' = ['\\', '"'] from by decide]
      rw [parseStrBody.eq_def]; simp [unescape, ih]
    · by_cases h2 : c = '\\'
      · subst h2
        rw [show escapeChar '\\' = ['\\', '\\'] from by decide]
        rw [parseStrBody.eq_def]; simp [unescape, ih]
      · by_cases h3 : c = Char.ofNat 8
        · subst h3
          rw [show escapeChar (Char.ofNat 8) = ['\\', 'b'] from by decide]
          rw [parseStrBody.eq_def]; simp [unescape, ih]
        · by_cases h4 : c = Char.ofNat 9
          · subst h4
            rw [show escapeChar (Char.ofNat 9) = ['\\', 't'] from by decide]
            rw [parseStrBody.eq_def]; simp [unescape, ih]
          · by_cases h5 : c = Char.ofNat 10
            · subst h5
              rw [show escapeChar (Char.ofNat 10) = ['\\', 'n'] from by decide]
              rw [parseStrBody.eq_def]; simp [unescape, ih]
            · by_cases h6 : c = Char.ofNat 12
              · subst h6
                rw [show escapeChar (Char.ofNat 12) = ['\\', 'f'] from by decide]
                rw [parseStrBody.eq_def]; simp [unescape, ih]
              · by_cases h7 : c = Char.ofNat 13
                · subst h7
                  rw [show escapeChar (Char.ofNat 13) = ['\\', 'r'] from by decide]
                  rw [parseStrBody.eq_def]; simp [unescape, ih]
                · by_cases h8 : c.toNat < 32
                  · have hdiv : c.toNat / 16 < 16 := by omega
                    have hmod : c.toNat % 16 < 16 := by omega
                    have e1 := hexVal_hexDigitChar _ hdiv
                    have e2 := hexVal_hexDigitChar _ hmod
                    rw [escapeChar]
                    simp only [if_neg h1, if_neg h2, if_neg h3, if_neg h4, if_neg h5,
                      if_neg h6, if_neg h7, if_pos h8, List.cons_append, List.nil_append]
                    rw [parseStrBody.eq_def]
                    simp [e1, e2, show hexVal '0' = some 0 from by decide, ih]
                    rw [show c.toNat / 16 * 16 + c.toNat % 16 = c.toNat from by omega,
                      Char.ofNat_toNat]
                  · have h9 : ¬ c.toNat < 32 := h8
                    rw [escapeChar]
                    simp only [if_neg h1, if_neg h2, if_neg h3, if_neg h4, if_neg h5,
                      if_neg h6, if_neg h7, if_neg h9, List.cons_append, List.nil_append]
                    rw [parseStrBody.eq_def]
                    simp [h1, h2, h9, ih]

/-- Parsing a serialized string value. -/
theorem parseVal_jstr (fuel : Nat) (sd rest : List Char) :
    parseVal (fuel + 1) ('"' :: (escapeL sd ++ '"' :: rest)) = some (.jstr (strOf sd), rest) := by
  rw [parseVal.eq_def]
  simp [skipWs, parseStrBody_escape]

/-- A closing brace ends the object with the accumulated fields. -/
theorem objLoop_end (fuel : Nat) (acc : List (String × Json)) (rest : List Char) :
    parseObjLoop (fuel + 1) acc (cbrace :: rest) = some (.jobj acc.reverse, rest) := by
  rw [parseObjLoop.eq_def]
  simp [skipWs, cbrace]

/-- Colon, then a string field value, then the object continuation. -/
theorem objField_step (fuel : Nat) (k : String) (acc : List (String × Json))
    (sd tail : List Char) :
    parseFieldVal (fuel + 2) k acc (':' :: '"' :: escapeL sd ++ '"' :: tail) =
      parseObjLoop (fuel + 1) ((k, .jstr (strOf sd)) :: acc) tail := by
  rw [parseFieldVal.eq_def]
  simp [skipWs, parseVal_jstr]

/-- Comma, then one more serialized `"key":"value"` field. -/
theorem objLoop_comma (fuel : Nat) (acc : List (String × Json)) (kd sd tail : List Char) :
    parseObjLoop (fuel + 3)
        acc (',' :: '"' :: (escapeL kd ++ '"' :: ':' :: '"' :: (escapeL sd ++ '"' :: tail))) =
      parseObjLoop (fuel + 1) ((strOf kd, .jstr (strOf sd)) :: acc) tail := by
  rw [parseObjLoop.eq_def]
  have h := parseStrBody_escape kd (':' :: '"' :: (escapeL sd ++ '"' :: tail))
  simp [skipWs, cbrace, h]
  exact objField_step fuel (strOf kd) acc sd tail

/-- The first `"key":"value"` field right after the opening brace. -/
theorem objStart (fuel : Nat) (kd sd tail : List Char) :
    parseObjRest (fuel + 3)
        ('"' :: (escapeL kd ++ '"' :: ':' :: '"' :: (escapeL sd ++ '"' :: tail))) =
      parseObjLoop (fuel + 1) [(strOf kd, .jstr (strOf sd))] tail := by
  rw [parseObjRest.eq_def]
  have h := parseStrBody_escape kd (':' :: '"' :: (escapeL sd ++ '"' :: tail))
  simp [cbrace, h]
  exact objField_step fuel (strOf kd) [] sd tail

/-- Entering an object value whose first character after the brace is a
quote. -/
theorem parseVal_obj (fuel : Nat) (cs : List Char) :
    parseVal (fuel + 1) (obrace :: '"' :: cs) = parseObjRest fuel ('"' :: cs) := by
  rw [parseVal.eq_def]
  simp [skipWs, obrace]

theorem skipWs_quote (cs : List Char) : skipWs ('"' :: cs) = '"' :: cs := by
  rw [skipWs]; simp

theorem parseVal_user (G : Nat) (u : UserRec) (rest : List Char) :
    parseVal (G + 16) (stringifyL (userToJson u) ++ rest) = some (userToJson u, rest) := by
  simp only [userToJson, stringifyL, stringifyObj, List.append_assoc, List.cons_append,
    List.nil_append]
  rw [parseVal_obj]
  rw [objStart, objLoop_comma, objLoop_comma, objLoop_comma, objLoop_comma, objLoop_comma,
    objLoop_comma, objLoop_end]
  simp [strOf_data]
  refine ⟨rfl, rfl, rfl, rfl, rfl, rfl, rfl⟩

/-- Parsing with `JSON.parse` inverts `JSON.stringify` on serialized user records. -/
theorem parseJson_user (u : UserRec) :
    parseJson (stringifyStr (userToJson u)) = some (userToJson u) := by
  have h := parseVal_user ((stringifyL (userToJson u)).length + 16) u []
  rw [List.append_nil] at h
  show (match parseVal ((stringifyL (userToJson u)).length + 32) (stringifyL (userToJson u)) with
    | some (j, rest) => if skipWs rest = [] then some j else none
    | none => none) = some (userToJson u)
  rw [show (stringifyL (userToJson u)).length + 32 =
    ((stringifyL (userToJson u)).length + 16) + 16 from by omega]
  rw [h]
  simp [skipWs]

/-- A serialized user record is never the empty string. -/
theorem stringifyStr_user_ne_empty (u : UserRec) : stringifyStr (userToJson u) ≠ "" := by
  intro h
  have : (stringifyStr (userToJson u)).data = ("" : String).data := by rw [h]
  simp [stringifyStr, strOf, userToJson, stringifyL] at this

/-!
## Claim theorems
-/

/-- A sample well-formed user record. -/
def demoUser : UserRec :=
  ⟨"u1", "a@b.com", "Alice", "junior", "developer", "2024-01-01", "2024-01-02"⟩

/-- C7: For every well-formed user record, writing it to the session store
and then reading it back (`getCurrentUser`) yields a value deep-equal to
the original; and for any stored user value that is not parseable JSON,
the read returns absent (`none`) and does not raise — `getCurrentUser` is
a total function by construction. -/
theorem user_store_roundtrip :
    (∀ (u : UserRec) (st : Store), getCurrentUser (writeUserRec u st) = some (userToJson u)) ∧
    (∀ (s : String) (st : Store), parseJson s = none →
      getCurrentUser ⟨st.authToken, some s⟩ = none) := by
  constructor
  · intro u st
    simp [getCurrentUser, writeUserRec, stringifyStr_user_ne_empty, parseJson_user]
  · intro s st h
    by_cases hs : s = ""
    · subst hs; simp [getCurrentUser]
    · simp [getCurrentUser, hs, h]

/-- Witness for C7 at a concrete user record and a concrete non-JSON
stored string. -/
theorem user_store_roundtrip_witness :
    getCurrentUser (writeUserRec demoUser Store.empty) = some (userToJson demoUser) ∧
    getCurrentUser ⟨none, some "oops"⟩ = none :=
  ⟨user_store_roundtrip.1 demoUser Store.empty,
   user_store_roundtrip.2 "oops" Store.empty (by rfl)⟩

/-- C2: `logout` removes both the auth token and the user record from the
session store on every outcome of the underlying HTTP call — success,
server error, or transport failure (the clearing sits in a `finally`
block). -/
theorem logout_clears_session (r : CallResult) (st : Store) :
    (runOp .logout r st).2.authToken = none ∧ (runOp .logout r st).2.user = none := by
  cases r <;> simp [runOp, Store.empty]

/-- C1 (amended): every service operation resolves on every outcome —
nothing is thrown to the caller; every operation **except `logout`**
resolves to the result envelope (the server body on success, a
`success = false` envelope on failure), while `logout` resolves with no
value at all (`Promise<void>`). -/
theorem ops_resolve_envelope :
    (∀ (r : CallResult) (st : Store), (runOp .logout r st).1 = none) ∧
    (∀ (op : ServiceOp) (body : Json) (st : Store), op ≠ .logout →
      (runOp op (.success body) st).1 = some body) ∧
    (∀ (op : ServiceOp) (resp : Option (Nat × Json)) (m : String) (st : Store),
      op ≠ .logout →
      (runOp op (.failure resp m) st).1 =
        some (.jobj [("success", .jbool false),
          ("message", envelopeMessage resp (fallbackMsg op)), ("error", .jstr m)])) := by
  refine ⟨fun r st => by cases r <;> rfl, fun op body st h => ?_, fun op resp m st h => ?_⟩
  · cases op <;> first | exact absurd rfl h | rfl
  · cases op <;> first | exact absurd rfl h | rfl

/-- Counterexample to C1 as stated: `logout` resolves with no value — in
particular not with an envelope — on a transport failure (and on every
other outcome). -/
theorem logout_resolves_no_envelope :
    ¬ ∃ e : Json, (runOp .logout (.failure none "Network Error") Store.empty).1 = some e := by
  simp [runOp]

/-- Witness for C1 (amended) at a success and at a transport failure. -/
theorem ops_resolve_envelope_witness :
    (runOp .startInterview (.success (.jbool true)) Store.empty).1 = some (.jbool true) ∧
    (runOp .getStats (.failure none "boom") Store.empty).1 =
      some (.jobj [("success", .jbool false), ("message", .jstr "Failed to get statistics"),
        ("error", .jstr "boom")]) :=
  ⟨ops_resolve_envelope.2.1 .startInterview (.jbool true) Store.empty (by decide),
   ops_resolve_envelope.2.2 .getStats none "boom" Store.empty (by decide)⟩

/-- A success payload *without* `access_token` (the `AuthResponse` type
marks `access_token` optional, and `signup`/`login` guard on it). -/
def demoNoTokenBody : Json :=
  .jobj [("success", .jbool true), ("message", .jstr "Login successful"),
    ("data", .jobj [("user", userToJson demoUser)])]

/-- A success payload with both a user record and an access token. -/
def demoTokenBody : Json :=
  .jobj [("success", .jbool true), ("message", .jstr "Login successful"),
    ("data", .jobj [("user", userToJson demoUser), ("access_token", .jstr "tok1")])]

/-- The both-present-or-both-absent session invariant of the spec. -/
def consistentStore (st : Store) : Prop :=
  (st.authToken = none ∧ st.user = none) ∨ (st.authToken ≠ none ∧ st.user ≠ none)

/-- Counterexample to C3 as stated: a login whose backend response is
`success = true` with a data payload containing a user but **no**
`access_token` stores the user without any token — the session store ends
up partially present. -/
theorem login_partial_session_cx :
    ¬ consistentStore (runOp .login (.success demoNoTokenBody) Store.empty).2 := by
  simp only [consistentStore]
  decide

/-- Hypothesis on a call outcome under which the auth operations preserve
session consistency: any success payload that passes the
`success && data` guard carries a non-empty-string `access_token`. -/
def goodAuthPayload : CallResult → Prop
  | .success body =>
    truthyOpt (body.getField "success") = true → truthyOpt (body.getField "data") = true →
    ∃ tok : String, ((body.getField "data").getD .jnull).getField "access_token" =
      some (.jstr tok) ∧ tok ≠ ""
  | .failure _ _ => True

/-- C3 (amended): for auth operations (signup, login, logout) the session
store stays both-present-or-both-absent provided every accepted success
payload carries a non-empty access token (without that hypothesis the
store can become partial, see the counterexample); and after a signup or
login whose payload has `success = true` with a data object containing a
user record and a non-empty-string `access_token`, `isAuthenticated` is
true, the token is stored, and the stored user deep-equals the payload's
user record. -/
theorem auth_session_consistency :
    (∀ (op : ServiceOp) (r : CallResult) (st : Store),
      (op = .signup ∨ op = .login ∨ op = .logout) → consistentStore st →
      goodAuthPayload r → consistentStore (runOp op r st).2) ∧
    (∀ (op : ServiceOp) (body d : Json) (u : UserRec) (tok : String) (st : Store),
      (op = .signup ∨ op = .login) →
      truthyOpt (body.getField "success") = true → body.getField "data" = some d →
      truthy d = true → d.getField "access_token" = some (.jstr tok) → tok ≠ "" →
      d.getField "user" = some (userToJson u) →
      isAuthenticated (runOp op (.success body) st).2 = true ∧
      (runOp op (.success body) st).2.authToken = some tok ∧
      getCurrentUser (runOp op (.success body) st).2 = some (userToJson u)) := by
  constructor
  · intro op r st hop hst hr
    have hauth : ∀ body, goodAuthPayload (.success body) →
        consistentStore (storeAuthData body st) := by
      intro body hb
      rw [storeAuthData]
      by_cases hcond : (truthyOpt (body.getField "success") &&
          truthyOpt (body.getField "data")) = true
      · rw [if_pos hcond]
        simp only [Bool.and_eq_true] at hcond
        obtain ⟨tok, htok, hne⟩ := hb hcond.1 hcond.2
        simp only [htok]
        simp [truthy, truthyOpt, hne, consistentStore]
      · rw [if_neg hcond]; exact hst
    have hfail : ∀ resp m, consistentStore (interceptStore (.failure resp m) st) := by
      intro resp m
      match resp with
      | none => exact hst
      | some (status, body) =>
        by_cases h4 : status = 401
        · subst h4
          have he : interceptStore (.failure (some (401, body)) m) st = Store.empty := rfl
          rw [he]; exact Or.inl ⟨rfl, rfl⟩
        · have he : interceptStore (.failure (some (status, body)) m) st = st := by
            simp [interceptStore, h4]
          rw [he]; exact hst
    rcases hop with rfl | rfl | rfl
    · cases r with
      | success body => exact hauth body hr
      | failure resp m => exact hfail resp m
    · cases r with
      | success body => exact hauth body hr
      | failure resp m => exact hfail resp m
    · cases r <;> exact Or.inl ⟨rfl, rfl⟩
  · intro op body d u tok st hop hsucc hdata htd htok hne huser
    have hmain : isAuthenticated (storeAuthData body st) = true ∧
        (storeAuthData body st).authToken = some tok ∧
        getCurrentUser (storeAuthData body st) = some (userToJson u) := by
      rw [storeAuthData]
      have hcond : (truthyOpt (body.getField "success") &&
          truthyOpt (body.getField "data")) = true := by
        rw [hsucc, hdata]; simp [truthyOpt, htd]
      rw [if_pos hcond, hdata]
      simp only [Option.getD_some, htok, huser]
      have : truthyOpt (some (Json.jstr tok)) = true := by simp [truthyOpt, truthy, hne]
      rw [if_pos this]
      refine ⟨by simp [isAuthenticated, jsToString, hne], by simp [jsToString], ?_⟩
      simp [getCurrentUser, stringifyOpt, stringifyStr_user_ne_empty, parseJson_user]
    rcases hop with rfl | rfl <;> exact hmain

/-- Witness for C3 (amended) at a login with a token-carrying payload. -/
theorem auth_session_consistency_witness :
    consistentStore (runOp .login (.success demoTokenBody) Store.empty).2 ∧
    isAuthenticated (runOp .login (.success demoTokenBody) Store.empty).2 = true ∧
    (runOp .login (.success demoTokenBody) Store.empty).2.authToken = some "tok1" ∧
    getCurrentUser (runOp .login (.success demoTokenBody) Store.empty).2 =
      some (userToJson demoUser) := by
  refine ⟨auth_session_consistency.1 .login (.success demoTokenBody) Store.empty
    (Or.inr (Or.inl rfl)) (Or.inl ⟨rfl, rfl⟩)
    (fun _ _ => ⟨"tok1", rfl, by decide⟩), ?_⟩
  have h := auth_session_consistency.2 .login demoTokenBody
    (.jobj [("user", userToJson demoUser), ("access_token", .jstr "tok1")])
    demoUser "tok1" Store.empty (Or.inr rfl) (by decide) (by rfl) (by decide)
    (by rfl) (by decide) (by rfl)
  exact h

/-- C4: the HTTP client's response interceptor clears both session keys on
a 401 response — regardless of which operation issued the request, as the
end-to-end runs of all 21 operations confirm — while 403/404/500/503
responses pass through with the session store untouched. -/
theorem unauthorized_clears_session :
    (∀ (st : Store) (body : Json) (m : String),
      interceptStore (.failure (some (401, body)) m) st = Store.empty) ∧
    (∀ (st : Store) (body : Json) (m : String) (s : Nat),
      s ∈ ([403, 404, 500, 503] : List Nat) →
      interceptStore (.failure (some (s, body)) m) st = st) ∧
    (∀ (op : ServiceOp) (st : Store) (body : Json) (m : String),
      (runOp op (.failure (some (401, body)) m) st).2 = Store.empty) := by
  refine ⟨fun st body m => rfl, fun st body m s hs => ?_, fun op st body m => ?_⟩
  · simp only [List.mem_cons, List.not_mem_nil, or_false] at hs
    rcases hs with rfl | rfl | rfl | rfl <;> rfl
  · cases op <;> simp [runOp, interceptStore, Store.empty]

/-- Witness for C4 at status 403 on a populated store. -/
theorem unauthorized_clears_session_witness :
    interceptStore (.failure (some (403, .jnull)) "forbidden") ⟨some "t", some "u"⟩ =
      ⟨some "t", some "u"⟩ :=
  unauthorized_clears_session.2.1 ⟨some "t", some "u"⟩ .jnull "forbidden" 403 (by decide)

/-- C5: the navigation machine starts on the welcome page; from the
dashboard, feature-select `"mock-interview"` displays the mock-interview
page; a back action from any feature page returns to the dashboard; and a
feature-select with an unrecognized identifier such as
`"nonexistent-page"` falls back to displaying the welcome page. -/
theorem navigation_machine :
    renderOf appInitialPage = Page.welcome ∧
    navStep "dashboard" (.featureSelect "mock-interview") = "mock-interview" ∧
    renderOf (navStep "dashboard" (.featureSelect "mock-interview")) = Page.mockInterview ∧
    (∀ s : String, isFeaturePage (renderOf s) = true → navStep s .back = "dashboard") ∧
    renderOf (navStep "dashboard" (.featureSelect "nonexistent-page")) = Page.welcome := by
  refine ⟨by decide, by decide, by decide, ?_, by decide⟩
  intro s h
  cases hr : renderOf s <;> simp_all [navStep, isFeaturePage]

/-- Witness for C5's universally quantified back edge at the tips page. -/
theorem navigation_machine_witness :
    navStep "tips" .back = "dashboard" :=
  navigation_machine.2.2.2.1 "tips" (by decide)

/-- C6 (on the code slip): `API_ENDPOINTS.AUTH` has no `LOGOUT` entry, so
`logout` posts to an `undefined` URL, which axios resolves to the bare
base URL — *not* to the documented `/auth/logout` path. -/
theorem logout_endpoint_missing (env : Option String) (a : OpArgs) :
    lookupStr AUTH_ENDPOINTS "LOGOUT" = none ∧
    (opRawRequest .logout a).method = "POST" ∧
    (opRawRequest .logout a).url = none ∧
    buildFullPath (apiBaseUrl env) (opRawRequest .logout a).url = apiBaseUrl env ∧
    buildFullPath (apiBaseUrl env) (opRawRequest .logout a).url ≠
      apiBaseUrl env ++ "/auth/logout" := by
  refine ⟨rfl, rfl, rfl, rfl, ?_⟩
  intro h
  have hlen := congrArg String.length h
  rw [String.length_append] at hlen
  have hurl : buildFullPath (apiBaseUrl env) (opRawRequest .logout a).url = apiBaseUrl env := rfl
  rw [hurl, show "/auth/logout".length = 12 from rfl] at hlen
  omega

/-- Fields of the failure envelope: the raw error description, the
`success = false` flag, and the message choice (server message when
truthy, else the fallback). -/
theorem failEnvelope_fields (fb : String) (resp : Option (Nat × Json)) (m : String) :
    (failEnvelope fb resp m).getField "error" = some (.jstr m) ∧
    (failEnvelope fb resp m).getField "success" = some (.jbool false) ∧
    (∀ sm, serverMessage resp = some sm → truthy sm = true →
      (failEnvelope fb resp m).getField "message" = some sm) ∧
    (truthyOpt (serverMessage resp) = false →
      (failEnvelope fb resp m).getField "message" = some (.jstr fb)) := by
  refine ⟨by simp [failEnvelope, Json.getField, lookupLast], ?_, ?_, ?_⟩
  · simp [failEnvelope, Json.getField, lookupLast]
  · intro sm hsm ht
    simp [failEnvelope, Json.getField, lookupLast, envelopeMessage, hsm, ht]
  · intro hf
    simp [failEnvelope, Json.getField, lookupLast, envelopeMessage]
    match hm : serverMessage resp with
    | none => simp
    | some sm =>
      rw [hm] at hf
      simp only [truthyOpt] at hf
      simp [hf]

/-- C8 (amended): for every failing service operation *except `logout`*
(which returns no envelope at all), the envelope's `message` equals the
server-provided message whenever the response carries a **truthy** one
(any non-empty string qualifies); otherwise — server message absent or
falsy, e.g. the empty string — it is the operation's fixed fallback
string; the `error` field always carries the raw error description. -/
theorem failure_envelope_message (op : ServiceOp) (resp : Option (Nat × Json))
    (m : String) (st : Store) (h : op ≠ .logout) :
    ∃ e, (runOp op (.failure resp m) st).1 = some e ∧
      e.getField "error" = some (.jstr m) ∧
      e.getField "success" = some (.jbool false) ∧
      (∀ sm, serverMessage resp = some sm → truthy sm = true →
        e.getField "message" = some sm) ∧
      (truthyOpt (serverMessage resp) = false →
        e.getField "message" = some (.jstr (fallbackMsg op))) := by
  cases op <;> first
    | exact absurd rfl h
    | exact ⟨_, rfl, failEnvelope_fields _ resp m⟩

/-- Counterexample to C8 as stated: a 500 response whose body *does*
contain a message — the empty string — still yields the generic fallback
message, because JavaScript `||` treats the empty string as falsy. -/
theorem empty_server_message_cx :
    serverMessage (some (500, .jobj [("message", .jstr "")])) = some (.jstr "") ∧
    (runOp .signup (.failure (some (500, .jobj [("message", .jstr "")])) "boom")
        Store.empty).1 =
      some (.jobj [("success", .jbool false), ("message", .jstr "Signup failed"),
        ("error", .jstr "boom")]) ∧
    (Json.jstr "Signup failed") ≠ (Json.jstr "") := by
  refine ⟨rfl, rfl, ?_⟩
  intro h
  injection h with h2
  exact absurd h2 (by decide)

/-- Witness for C8 (amended) with a truthy server message. -/
theorem failure_envelope_message_witness :
    ∃ e, (runOp .buildResume
        (.failure (some (500, .jobj [("message", .jstr "srv says no")])) "boom")
        Store.empty).1 = some e ∧
      e.getField "error" = some (.jstr "boom") ∧
      e.getField "success" = some (.jbool false) ∧
      (∀ sm, serverMessage (some (500, .jobj [("message", .jstr "srv says no")])) = some sm →
        truthy sm = true → e.getField "message" = some sm) ∧
      (truthyOpt (serverMessage (some (500, .jobj [("message", .jstr "srv says no")]))) = false →
        e.getField "message" = some (.jstr (fallbackMsg .buildResume))) :=
  failure_envelope_message .buildResume (some (500, .jobj [("message", .jstr "srv says no")]))
    "boom" Store.empty (by decide)

/-- Sample service-call arguments. -/
def demoArgs : OpArgs := ⟨.jnull, "developer", "junior", none, "s1", "t1", "r1", none, none, none⟩

/-- Counterexample to C9 as stated: a store that holds the (empty-string)
token `""` gets **no** Authorization header, because the interceptor's
`if (token)` is a JavaScript truthiness test. -/
theorem empty_token_no_header_cx :
    (⟨some "", none⟩ : Store).authToken = some "" ∧
    (applyRequestInterceptor ⟨some "", none⟩ (opRawRequest .login demoArgs)).authHeader ≠
      some ("Bearer " ++ "") := by
  refine ⟨rfl, ?_⟩
  intro h
  simp [applyRequestInterceptor, opRawRequest] at h

/-- C9 (amended): no service module sets an auth header itself (every raw
request carries none); the request interceptor attaches
`Bearer <token>` exactly when the stored token is present **and
non-empty**, and leaves the header absent when the token is missing or
the empty string. -/
theorem bearer_header_interception (op : ServiceOp) (a : OpArgs) (st : Store) :
    (opRawRequest op a).authHeader = none ∧
    (∀ t, st.authToken = some t → t ≠ "" →
      (applyRequestInterceptor st (opRawRequest op a)).authHeader = some ("Bearer " ++ t)) ∧
    (st.authToken = none →
      (applyRequestInterceptor st (opRawRequest op a)).authHeader = none) ∧
    (st.authToken = some "" →
      (applyRequestInterceptor st (opRawRequest op a)).authHeader = none) := by
  refine ⟨by cases op <;> rfl, fun t ht hne => ?_, fun ht => ?_, fun ht => ?_⟩
  · rw [applyRequestInterceptor, ht]
    simp [hne]
  · rw [applyRequestInterceptor, ht]
    cases op <;> rfl
  · rw [applyRequestInterceptor, ht]
    cases op <;> rfl

/-- Witness for C9 (amended) on a populated store. -/
theorem bearer_header_interception_witness :
    (applyRequestInterceptor ⟨some "tok1", none⟩
      (opRawRequest .getProfile demoArgs)).authHeader = some ("Bearer " ++ "tok1") :=
  (bearer_header_interception .getProfile demoArgs ⟨some "tok1", none⟩).2.1 "tok1" rfl
    (by decide)

/-- C10: the implicit defaults of the optional parameters — `count = 5`
for `getQuestions`, `limit = 10` for `getHistory`, `days = 30` for
`getTrends`, and `template = "modern"` in the `exportResume` body — are
what the requests carry when the caller omits the argument. -/
theorem default_parameters (b : Json) (jr sl sid tid rid : String) :
    (opRawRequest .getQuestions ⟨b, jr, sl, none, sid, tid, rid, none, none, none⟩).params =
      [("job_role", jr), ("skill_level", sl), ("count", "5")] ∧
    (opRawRequest .getHistory ⟨b, jr, sl, none, sid, tid, rid, none, none, none⟩).params =
      [("limit", "10")] ∧
    (opRawRequest .getTrends ⟨b, jr, sl, none, sid, tid, rid, none, none, none⟩).params =
      [("days", "30")] ∧
    (opRawRequest .exportResume ⟨b, jr, sl, none, sid, tid, rid, none, none, none⟩).body =
      some (.jobj [("resume_id", .jstr rid), ("template", .jstr "modern")]) := by
  have h5 : toString ((none : Option Nat).getD 5) = "5" := by decide
  have h10 : toString ((none : Option Nat).getD 10) = "10" := by decide
  have h30 : toString ((none : Option Nat).getD 30) = "30" := by decide
  refine ⟨?_, ?_, ?_, rfl⟩
  · show [("job_role", jr), ("skill_level", sl),
      ("count", toString ((none : Option Nat).getD 5))] = _
    rw [h5]
  · show [("limit", toString ((none : Option Nat).getD 10))] = _
    rw [h10]
  · show [("days", toString ((none : Option Nat).getD 30))] = _
    rw [h30]
